import Mathlib

/-!
# Verification of the patient risk assessment core (`assessment.py`)

Shallow embedding of the field-parsing, scoring and aggregation core of
`src/assessment.py`. Python's dynamically typed field values are embedded as a
tagged union `RawValue`; Python floats are embedded as exact rationals `ℚ`
(all thresholds in the code are decimal literals, so the comparisons coincide;
IEEE special values inf/NaN are outside the model). Exceptions are embedded as
`Option`: a Python function that catches every exception and returns a
value-or-`None` becomes a total Lean function into `Option`.
-/

/-- A raw patient field value as received from JSON: `None`, an `int`, a
`float`, a `str`, or a value of any other type (list, dict, ...). -/
inductive RawValue where
  | null
  | int (n : ℤ)
  | float (q : ℚ)
  | str (s : String)
  | other
deriving DecidableEq, Repr

/-- Value of a digit character. -/
def digitVal (c : Char) : ℕ := c.toNat - 48

/-- Numeric value of a list of decimal digit characters (`int("...")` on a
digit string). -/
def digitsToNat (ds : List Char) : ℕ :=
  ds.foldl (fun a c => 10 * a + digitVal c) 0

/-- Greedy left-to-right scan of `re.findall(r"\d{1,3}", s)`: non-overlapping
matches of one to three consecutive digits, in order of appearance; a maximal
run of more than three digits is split greedily (e.g. `"1234"` gives the
matches `"123"` and `"4"`). `cur` is the current partial match, reversed. -/
def findRuns : List Char → List Char → List (List Char)
  | [], cur => if cur = [] then [] else [cur.reverse]
  | c :: rest, cur =>
    if c.isDigit then
      if cur.length = 3 then cur.reverse :: findRuns rest [c]
      else findRuns rest (c :: cur)
    else
      if cur = [] then findRuns rest []
      else cur.reverse :: findRuns rest []

/-- `extract_numbers` (assessment.py:97-101): all 1-3 digit runs of a string,
as integers. The `if not s or not isinstance(s, str)` guard is the `RawValue`
dispatch in `parse_bp`; here the input is already known to be a string, and
the guard's empty-string case yields `[]` anyway. -/
def extract_numbers (s : String) : List ℕ :=
  (findRuns s.data []).map digitsToNat

/-- `parse_bp` (assessment.py:104-114): `None` / numeric / non-string input
gives both components absent; a string gives the first two extracted numbers
when at least two exist, otherwise both absent. -/
def parse_bp : RawValue → Option ℕ × Option ℕ
  | .null => (none, none)
  | .int _ => (none, none)
  | .float _ => (none, none)
  | .str s =>
    match extract_numbers s with
    | a :: b :: _ => (some a, some b)
    | _ => (none, none)
  | .other => (none, none)

/-- `bp_score` (assessment.py:117-142): collect the scores of every satisfied
band and return their maximum (0 when the list is empty or a value is absent).
The source's `int(systolic)` conversion inside `try` is the identity on the
integers produced by `parse_bp`. -/
def bp_score (systolic diastolic : Option ℕ) : ℕ :=
  match systolic, diastolic with
  | some s, some d =>
    let scores : List ℕ :=
      (if s < 120 ∧ d < 80 then [1] else []) ++
      (if 120 ≤ s ∧ s ≤ 129 ∧ d < 80 then [2] else []) ++
      (if (130 ≤ s ∧ s ≤ 139) ∨ (80 ≤ d ∧ d ≤ 89) then [3] else []) ++
      (if 140 ≤ s ∨ 90 ≤ d then [4] else [])
    scores.foldl max 0
  | _, _ => 0

/-- Match of `re.search(r"-?\d+\.?\d*", ...)` starting exactly at the head of
the list: optional minus sign, one or more digits (greedy), optionally a dot
followed by more digits (greedy). Returns sign, integer digits, fraction
digits. -/
def matchNumAt : List Char → Option (Bool × List Char × List Char)
  | [] => none
  | c :: rest =>
    if c = '-' then
      match rest with
      | d :: _ =>
        if d.isDigit then
          let ip := rest.takeWhile Char.isDigit
          match rest.drop ip.length with
          | '.' :: r3 => some (true, ip, r3.takeWhile Char.isDigit)
          | _ => some (true, ip, [])
        else none
      | [] => none
    else if c.isDigit then
      let ip := (c :: rest).takeWhile Char.isDigit
      match (c :: rest).drop ip.length with
      | '.' :: r3 => some (false, ip, r3.takeWhile Char.isDigit)
      | _ => some (false, ip, [])
    else none

/-- Leftmost match of `re.search(r"-?\d+\.?\d*", s)`: try each start position
from the left. -/
def tempSearch : List Char → Option (Bool × List Char × List Char)
  | [] => none
  | c :: rest =>
    match matchNumAt (c :: rest) with
    | some m => some m
    | none => tempSearch rest

/-- `float(m.group(0))` on a match of `-?\d+\.?\d*`: this grammar is always a
valid Python float literal, so the conversion never fails. -/
def floatOfMatch : Bool × List Char × List Char → ℚ
  | (neg, ip, fp) =>
    let v : ℚ := (digitsToNat ip : ℚ) + (digitsToNat fp : ℚ) / (10 : ℚ) ^ fp.length
    if neg then -v else v

/-- `parse_temp` (assessment.py:145-159): `None` absent, numeric cast to
float, string searched for the first `-?\d+\.?\d*` match, other types
absent. -/
def parse_temp : RawValue → Option ℚ
  | .null => none
  | .int n => some (n : ℚ)
  | .float q => some q
  | .str s =>
    match tempSearch s.data with
    | none => none
    | some m => some (floatOfMatch m)
  | .other => none

/-- `temp_score` (assessment.py:162-174). -/
def temp_score : Option ℚ → ℕ
  | none => 0
  | some t =>
    if t ≤ 99.5 then 0
    else if 99.6 ≤ t ∧ t ≤ 100.9 then 1
    else if 101.0 ≤ t then 2
    else 0

/-- Python `int()` applied to a float: truncation toward zero. -/
def pyTrunc (q : ℚ) : ℤ := if 0 ≤ q then ⌊q⌋ else ⌈q⌉

/-- Leftmost match of `re.search(r"\d{1,3}", s)`: up to three digits starting
at the first digit of the string. -/
def ageSearch : List Char → Option (List Char)
  | [] => none
  | c :: rest =>
    if c.isDigit then some (((c :: rest).takeWhile Char.isDigit).take 3)
    else ageSearch rest

/-- `parse_age` (assessment.py:177-190): `None` absent, numeric truncated to
int, string searched for the first 1-3 digit run (`int` on it never fails),
other types absent. -/
def parse_age : RawValue → Option ℤ
  | .null => none
  | .int n => some n
  | .float q => some (pyTrunc q)
  | .str s =>
    match ageSearch s.data with
    | none => none
    | some ds => some (digitsToNat ds : ℤ)
  | .other => none

/-- `age_score` (assessment.py:193-199). -/
def age_score : Option ℤ → ℕ
  | none => 0
  | some a => if a > 65 then 2 else 1

/-! ## Identifiers, records and the aggregation loop -/

/-- A patient identifier field value: absent (`None` / missing key), a JSON
number, or a string. (Identifiers of other Python types are outside the
model; the specification's data model types identifiers as strings.) -/
inductive IdValue where
  | null
  | int (n : ℤ)
  | str (s : String)
deriving DecidableEq, Repr

/-- Python truthiness of an identifier value: `None`, `0` and `""` are falsy. -/
def truthyId : IdValue → Bool
  | .null => false
  | .int n => n ≠ 0
  | .str s => s ≠ ""

/-- One input record: the identifier fields and the three raw vital fields
(`RawValue.null` models a missing key, as `dict.get` returns `None`). -/
structure PatientRecord where
  patient_id : IdValue
  id : IdValue
  blood_pressure : RawValue
  temperature : RawValue
  age : RawValue
deriving DecidableEq, Repr

/-- `pid = p.get("patient_id") or p.get("id"); if not pid: continue`
(assessment.py:208-211): Python `a or b` yields `a` when truthy, else `b`;
a falsy result means the record is skipped. -/
def getPid (p : PatientRecord) : Option IdValue :=
  let pid := if truthyId p.patient_id then p.patient_id else p.id
  if truthyId pid then some pid else none

/-- Python `<=` on identifier values, as used by `sorted`. On two strings it
is lexicographic comparison of code points (Lean's `String` order), on two
numbers numeric. Python raises `TypeError` on an `int`/`str` mix; the
cross-constructor rank ordering here is a total completion used only so the
model stays total (the specification's identifiers are all strings). -/
def idLe : IdValue → IdValue → Prop
  | .int a, .int b => a ≤ b
  | .str a, .str b => a ≤ b
  | a, b => (match a with | .null => 0 | .int _ => 1 | .str _ => 2) ≤
            (match b with | .null => 0 | .int _ => (1 : ℕ) | .str _ => 2)

instance : DecidableRel idLe := fun a b => by
  cases a <;> cases b <;> simp only [idLe] <;> infer_instance

instance : IsTotal IdValue idLe where
  total a b := by
    cases a <;> cases b <;> simp only [idLe] <;>
      first
        | omega
        | exact le_total _ _

instance : IsTrans IdValue idLe where
  trans a b c := by
    cases a <;> cases b <;> cases c <;> simp only [idLe] <;> intro h1 h2 <;>
      first
        | omega
        | exact le_trans h1 h2

instance : IsAntisymm IdValue idLe where
  antisymm a b := by
    cases a <;> cases b <;> simp only [idLe] <;> intro h1 h2 <;>
      first
        | trivial
        | omega
        | exact congrArg _ (le_antisymm h1 h2)

/-- `sorted(set(l))` (assessment.py:241-243): drop duplicates, then sort
ascending. `List.insertionSort` models Python's sort: on a duplicate-free
list a total antisymmetric order determines the sorted result uniquely, so
the choice of algorithm is immaterial. -/
def pySortedSet (l : List IdValue) : List IdValue :=
  (l.dedup).insertionSort idLe

/-- The final aggregated output (assessment.py:240-244). -/
structure AssessmentResult where
  high_risk_patients : List IdValue
  fever_patients : List IdValue
  data_quality_issues : List IdValue
deriving DecidableEq, Repr

/-- The loop body of `analyze_patients` (assessment.py:207-237): acting on
the accumulator triple (high_risk, fever, data_issues). -/
def processRecord (acc : List IdValue × List IdValue × List IdValue)
    (p : PatientRecord) : List IdValue × List IdValue × List IdValue :=
  match getPid p with
  | none => acc
  | some pid =>
    let sd := parse_bp p.blood_pressure
    let systolic := sd.1
    let diastolic := sd.2
    let bp_invalid := systolic.isNone || diastolic.isNone
    let temp := parse_temp p.temperature
    let temp_invalid := temp.isNone
    let age := parse_age p.age
    let age_invalid := age.isNone
    let data_issues :=
      if bp_invalid || temp_invalid || age_invalid then acc.2.2 ++ [pid] else acc.2.2
    let total := bp_score systolic diastolic + temp_score temp + age_score age
    let high_risk := if 4 ≤ total then acc.1 ++ [pid] else acc.1
    let fever :=
      match temp with
      | some t => if (99.6 : ℚ) ≤ t then acc.2.1 ++ [pid] else acc.2.1
      | none => acc.2.1
    (high_risk, fever, data_issues)

/-- `analyze_patients` (assessment.py:202-244): fold every record through the
loop body starting from empty lists, then deduplicate and sort each list. -/
def analyze_patients (patients : List PatientRecord) : AssessmentResult :=
  let r := patients.foldl processRecord ([], [], [])
  { high_risk_patients := pySortedSet r.1
    fever_patients := pySortedSet r.2.1
    data_quality_issues := pySortedSet r.2.2 }

/-! ## Characterization of the aggregation loop -/

/-- The per-record composite score: sum of the three sub-scores computed from
the record's raw fields. -/
def compositeScore (p : PatientRecord) : ℕ :=
  bp_score (parse_bp p.blood_pressure).1 (parse_bp p.blood_pressure).2 +
    temp_score (parse_temp p.temperature) + age_score (parse_age p.age)

/-- The record qualifies for `data_quality_issues`: some vital is absent. -/
def diFlag (p : PatientRecord) : Bool :=
  (parse_bp p.blood_pressure).1.isNone || (parse_bp p.blood_pressure).2.isNone ||
    (parse_temp p.temperature).isNone || (parse_age p.age).isNone

/-- The record qualifies for `high_risk_patients`: composite score at
least 4. -/
def hrFlag (p : PatientRecord) : Bool :=
  decide (4 ≤ compositeScore p)

/-- The record qualifies for `fever_patients`: temperature present and at
least 99.6. -/
def fvFlag (p : PatientRecord) : Bool :=
  match parse_temp p.temperature with
  | some t => decide ((99.6 : ℚ) ≤ t)
  | none => false

/-- The identifiers of the records with a usable identifier that satisfy a
given per-record predicate, in input order. -/
def selectPids (f : PatientRecord → Bool) (l : List PatientRecord) : List IdValue :=
  l.filterMap fun p =>
    match getPid p with
    | some pid => if f p then some pid else none
    | none => none

/-! ## Concrete records used in instance parts of the claims -/

/-- BP `"135/85"` (Stage 1, sub-score 3), temperature 100.0 (sub-score 1),
age 45 (sub-score 1): composite 5. -/
def rHi : PatientRecord :=
  ⟨.str "HR1", .null, .str "135/85", .float 100.0, .int 45⟩

/-- BP `"118/76"` (Normal, sub-score 1), temperature 98.6 (sub-score 0),
age 30 (sub-score 1): composite 2. -/
def rLo : PatientRecord :=
  ⟨.str "LO1", .null, .str "118/76", .float 98.6, .int 30⟩

/-- Temperature string `"101.2 F"`. -/
def rFev : PatientRecord :=
  ⟨.str "FV1", .null, .str "120/80", .str "101.2 F", .int 50⟩

/-- Blood pressure string `"120"` with only one number. -/
def rOneNum : PatientRecord :=
  ⟨.str "DQ1", .null, .str "120", .float 98.6, .int 50⟩

/-- Temperature 100.95, in the gap between the Low Fever and High Fever
bands but at or above the 99.6 fever threshold. -/
def rGap : PatientRecord :=
  ⟨.str "GP1", .null, .str "118/76", .float 100.95, .int 30⟩

/-- Both identifier fields falsy: `patient_id` is `0`, `id` is `""`. -/
def rNoId : PatientRecord :=
  ⟨.int 0, .str "", .str "118/76", .float 98.6, .int 30⟩

/-- Non-empty `patient_id` with a competing `id` value also present. -/
def rPidBoth : PatientRecord :=
  ⟨.str "P1", .str "P2", .str "118/76", .float 98.6, .int 30⟩

theorem selectPids_nil (f : PatientRecord → Bool) : selectPids f [] = [] := rfl

theorem selectPids_cons (f : PatientRecord → Bool) (p : PatientRecord)
    (l : List PatientRecord) :
    selectPids f (p :: l) =
      (match getPid p with
       | some pid => if f p then [pid] else []
       | none => []) ++ selectPids f l := by
  cases h : getPid p with
  | none => simp [selectPids, List.filterMap_cons, h]
  | some pid =>
    by_cases hf : f p <;> simp [selectPids, List.filterMap_cons, h, hf]

theorem mem_selectPids {f : PatientRecord → Bool} {l : List PatientRecord}
    {pid : IdValue} :
    pid ∈ selectPids f l ↔ ∃ p ∈ l, getPid p = some pid ∧ f p = true := by
  simp only [selectPids, List.mem_filterMap]
  constructor
  · rintro ⟨p, hp, hmatch⟩
    refine ⟨p, hp, ?_⟩
    cases h : getPid p with
    | none => rw [h] at hmatch; exact absurd hmatch (by simp)
    | some q =>
      rw [h] at hmatch
      by_cases hf : f p
      · simp [hf] at hmatch; exact ⟨by rw [hmatch], hf⟩
      · simp [hf] at hmatch
  · rintro ⟨p, hp, hpid, hf⟩
    exact ⟨p, hp, by rw [hpid]; simp [hf]⟩

/-- The loop of `analyze_patients`, characterized: each accumulator collects
the identifiers of the qualifying records in input order. -/
theorem foldl_processRecord (l : List PatientRecord) :
    ∀ a b c : List IdValue,
      l.foldl processRecord (a, b, c) =
        (a ++ selectPids hrFlag l, b ++ selectPids fvFlag l,
          c ++ selectPids diFlag l) := by
  induction l with
  | nil => intro a b c; simp [selectPids]
  | cons p l ih =>
    intro a b c
    rw [List.foldl_cons]
    have hstep : processRecord (a, b, c) p =
        (a ++ (match getPid p with
               | some pid => if hrFlag p then [pid] else []
               | none => []),
         b ++ (match getPid p with
               | some pid => if fvFlag p then [pid] else []
               | none => []),
         c ++ (match getPid p with
               | some pid => if diFlag p then [pid] else []
               | none => [])) := by
      cases h : getPid p with
      | none => simp [processRecord, h]
      | some pid =>
        simp only [processRecord, h]
        refine Prod.ext ?_ (Prod.ext ?_ ?_)
        · by_cases hc : 4 ≤ compositeScore p
          · rw [if_pos (by simpa [compositeScore] using hc)]
            simp [hrFlag, hc]
          · rw [if_neg (by simpa [compositeScore] using hc)]
            simp [hrFlag, hc]
        · cases ht : parse_temp p.temperature with
          | none => simp [ht, fvFlag]
          | some t =>
            by_cases hq : (99.6 : ℚ) ≤ t
            · simp [ht, hq, fvFlag]
            · simp [ht, hq, fvFlag]
        · by_cases hd : diFlag p = true
          · simp only [diFlag] at hd
            simp [hd, diFlag]
          · simp only [diFlag] at hd
            simp [diFlag, hd]
    rw [hstep, ih, selectPids_cons, selectPids_cons, selectPids_cons]
    simp [List.append_assoc]

theorem mem_pySortedSet {a : IdValue} {l : List IdValue} :
    a ∈ pySortedSet l ↔ a ∈ l := by
  rw [pySortedSet, (List.perm_insertionSort idLe l.dedup).mem_iff]
  exact List.mem_dedup

/-- The three output lists, characterized by membership. -/
theorem mem_analyze (patients : List PatientRecord) (pid : IdValue) :
    (pid ∈ (analyze_patients patients).high_risk_patients ↔
      ∃ p ∈ patients, getPid p = some pid ∧ hrFlag p = true) ∧
    (pid ∈ (analyze_patients patients).fever_patients ↔
      ∃ p ∈ patients, getPid p = some pid ∧ fvFlag p = true) ∧
    (pid ∈ (analyze_patients patients).data_quality_issues ↔
      ∃ p ∈ patients, getPid p = some pid ∧ diFlag p = true) := by
  have h := foldl_processRecord patients [] [] []
  refine ⟨?_, ?_, ?_⟩ <;>
    · simp only [analyze_patients, h, List.nil_append]
      rw [mem_pySortedSet]
      exact mem_selectPids

theorem diFlag_iff (p : PatientRecord) :
    diFlag p = true ↔
      ((parse_bp p.blood_pressure).1 = none ∨ (parse_bp p.blood_pressure).2 = none ∨
        parse_temp p.temperature = none ∨ parse_age p.age = none) := by
  simp [diFlag, Option.isNone_iff_eq_none, or_assoc]

theorem hrFlag_iff (p : PatientRecord) :
    hrFlag p = true ↔
      4 ≤ bp_score (parse_bp p.blood_pressure).1 (parse_bp p.blood_pressure).2 +
            temp_score (parse_temp p.temperature) + age_score (parse_age p.age) := by
  simp [hrFlag, compositeScore]

theorem fvFlag_iff (p : PatientRecord) :
    fvFlag p = true ↔
      ∃ t : ℚ, parse_temp p.temperature = some t ∧ (99.6 : ℚ) ≤ t := by
  cases h : parse_temp p.temperature <;> simp [fvFlag, h]

theorem pySortedSet_nodup (l : List IdValue) : (pySortedSet l).Nodup :=
  ((List.perm_insertionSort idLe l.dedup).symm).nodup (List.nodup_dedup l)

theorem pySortedSet_sorted (l : List IdValue) :
    List.Sorted idLe (pySortedSet l) :=
  List.sorted_insertionSort idLe l.dedup

theorem pySortedSet_eq_of_perm {l₁ l₂ : List IdValue} (h : l₁.Perm l₂) :
    pySortedSet l₁ = pySortedSet l₂ :=
  List.eq_of_perm_of_sorted
    ((List.perm_insertionSort idLe l₁.dedup).trans
      ((h.dedup).trans (List.perm_insertionSort idLe l₂.dedup).symm))
    (pySortedSet_sorted l₁) (pySortedSet_sorted l₂)

/-! ## Claims -/

/-- C1: for present systolic and diastolic values, the blood-pressure
sub-score equals the maximum score over all satisfied bands — Normal 1,
Elevated 2, Stage 1 3, Stage 2 4 (an unsatisfied band contributes 0, so the
maximum is 0 when no band is satisfied) — and the sub-score is 0 when either
value is absent. -/
theorem bp_score_is_max_of_bands (s d : ℕ) :
    bp_score (some s) (some d) =
      max (max (if s < 120 ∧ d < 80 then 1 else 0)
               (if 120 ≤ s ∧ s ≤ 129 ∧ d < 80 then 2 else 0))
          (max (if (130 ≤ s ∧ s ≤ 139) ∨ (80 ≤ d ∧ d ≤ 89) then 3 else 0)
               (if 140 ≤ s ∨ 90 ≤ d then 4 else 0)) ∧
    (∀ o : Option ℕ, bp_score none o = 0 ∧ bp_score o none = 0) := by
  constructor
  · simp only [bp_score]
    split_ifs <;> rfl
  · intro o; cases o <;> exact ⟨rfl, rfl⟩

/-- C2: each field parser is a total function returning a value-or-absent
result on every raw input, whatever its type; exceptions in the Python
source are caught and mapped to absent, which the embedding renders as
totality into `Option` (the blood-pressure parser moreover returns both
components or neither). -/
theorem parsers_never_raise (raw : RawValue) :
    (parse_bp raw = (none, none) ∨
      ∃ s d : ℕ, parse_bp raw = (some s, some d)) ∧
    (parse_temp raw = none ∨ ∃ t : ℚ, parse_temp raw = some t) ∧
    (parse_age raw = none ∨ ∃ a : ℤ, parse_age raw = some a) := by
  refine ⟨?_, ?_, ?_⟩ <;> cases raw <;>
    simp only [parse_bp, parse_temp, parse_age] <;>
    try simp
  · rename_i s
    rcases h : extract_numbers s with _ | ⟨a, _ | ⟨b, rest⟩⟩ <;> simp
  · rename_i s
    rcases h : tempSearch s.data with _ | m <;> simp
  · rename_i s
    rcases h : ageSearch s.data with _ | ds <;> simp

/-- C3: an identifier is in `data_quality_issues` exactly when some record
carrying it (with a usable identifier) has a vital that failed to parse —
independently of the composite score. Flagging is never fatal:
`analyze_patients` is a total function. -/
theorem data_quality_iff_vital_absent (patients : List PatientRecord) (pid : IdValue) :
    pid ∈ (analyze_patients patients).data_quality_issues ↔
      ∃ p ∈ patients, getPid p = some pid ∧
        ((parse_bp p.blood_pressure).1 = none ∨ (parse_bp p.blood_pressure).2 = none ∨
          parse_temp p.temperature = none ∨ parse_age p.age = none) := by
  rw [(mem_analyze patients pid).2.2]
  simp only [diFlag_iff]

/-- C4: an identifier is in `high_risk_patients` exactly when some record
carrying it has composite score (sum of the three sub-scores) at least 4; in
particular sub-scores 3, 1, 1 (record `rHi`, total 5) are included and
sub-scores 1, 0, 1 (record `rLo`, total 2) are not. -/
theorem high_risk_iff_composite :
    (∀ (patients : List PatientRecord) (pid : IdValue),
      pid ∈ (analyze_patients patients).high_risk_patients ↔
        ∃ p ∈ patients, getPid p = some pid ∧
          4 ≤ bp_score (parse_bp p.blood_pressure).1 (parse_bp p.blood_pressure).2 +
                temp_score (parse_temp p.temperature) + age_score (parse_age p.age)) ∧
    IdValue.str "HR1" ∈ (analyze_patients [rHi]).high_risk_patients ∧
    IdValue.str "LO1" ∉ (analyze_patients [rLo]).high_risk_patients := by
  have hiff : ∀ (patients : List PatientRecord) (pid : IdValue),
      pid ∈ (analyze_patients patients).high_risk_patients ↔
        ∃ p ∈ patients, getPid p = some pid ∧
          4 ≤ bp_score (parse_bp p.blood_pressure).1 (parse_bp p.blood_pressure).2 +
                temp_score (parse_temp p.temperature) + age_score (parse_age p.age) := by
    intro patients pid
    rw [(mem_analyze patients pid).1]
    simp only [hrFlag_iff]
  refine ⟨hiff, ?_, ?_⟩
  · rw [hiff]
    refine ⟨rHi, by simp, by decide, ?_⟩
    have hbp : bp_score (parse_bp rHi.blood_pressure).1 (parse_bp rHi.blood_pressure).2 = 3 := by
      decide
    have htp : temp_score (parse_temp rHi.temperature) = 1 := by
      rw [show parse_temp rHi.temperature = some (100.0 : ℚ) from rfl]
      norm_num [temp_score]
    have hag : age_score (parse_age rHi.age) = 1 := by decide
    rw [hbp, htp, hag]
    omega
  · rw [hiff]
    rintro ⟨p, hp, hpid, hscore⟩
    rw [List.mem_singleton] at hp
    subst hp
    have hbp : bp_score (parse_bp rLo.blood_pressure).1 (parse_bp rLo.blood_pressure).2 = 1 := by
      decide
    have htp : temp_score (parse_temp rLo.temperature) = 0 := by
      rw [show parse_temp rLo.temperature = some (98.6 : ℚ) from rfl]
      norm_num [temp_score]
    have hag : age_score (parse_age rLo.age) = 1 := by decide
    rw [hbp, htp, hag] at hscore
    omega

/-- Witness for C4: the two concrete inclusion facts. -/
theorem high_risk_iff_composite_witness :
    IdValue.str "HR1" ∈ (analyze_patients [rHi]).high_risk_patients ∧
    IdValue.str "LO1" ∉ (analyze_patients [rLo]).high_risk_patients :=
  ⟨high_risk_iff_composite.2.1, high_risk_iff_composite.2.2⟩

/-- C5: an identifier is in `fever_patients` exactly when some record
carrying it has a present temperature of at least 99.6; and the raw string
`"101.2 F"` parses to 101.2, scores 2, and puts its patient in
`fever_patients`. -/
theorem fever_iff_temp_present_high :
    (∀ (patients : List PatientRecord) (pid : IdValue),
      pid ∈ (analyze_patients patients).fever_patients ↔
        ∃ p ∈ patients, getPid p = some pid ∧
          ∃ t : ℚ, parse_temp p.temperature = some t ∧ (99.6 : ℚ) ≤ t) ∧
    parse_temp (.str "101.2 F") = some (101.2 : ℚ) ∧
    temp_score (some (101.2 : ℚ)) = 2 ∧
    IdValue.str "FV1" ∈ (analyze_patients [rFev]).fever_patients := by
  have hparse : parse_temp (.str "101.2 F") = some (101.2 : ℚ) := by
    have h : tempSearch ("101.2 F".data) = some (false, ['1', '0', '1'], ['2']) := by decide
    have h1 : digitsToNat ['1', '0', '1'] = 101 := by decide
    have h2 : digitsToNat ['2'] = 2 := by decide
    simp only [parse_temp, h, floatOfMatch, h1, h2]
    norm_num
  have hiff : ∀ (patients : List PatientRecord) (pid : IdValue),
      pid ∈ (analyze_patients patients).fever_patients ↔
        ∃ p ∈ patients, getPid p = some pid ∧
          ∃ t : ℚ, parse_temp p.temperature = some t ∧ (99.6 : ℚ) ≤ t := by
    intro patients pid
    rw [(mem_analyze patients pid).2.1]
    simp only [fvFlag_iff]
  refine ⟨hiff, hparse, by norm_num [temp_score], ?_⟩
  rw [hiff]
  exact ⟨rFev, by simp, by decide, 101.2, hparse, by norm_num⟩

/-- C6: `parse_bp` yields both components absent on `None` and on numeric
input; on a string, the 1-3 digit runs are extracted in order of appearance
(the definition of `extract_numbers`), the first two become systolic and
diastolic when at least two exist (later runs ignored), and fewer than two
runs yields both absent; in particular `"120"` yields both absent,
blood-pressure sub-score 0, and a data-quality flag. -/
theorem parse_bp_needs_two_runs :
    parse_bp .null = (none, none) ∧
    (∀ n : ℤ, parse_bp (.int n) = (none, none)) ∧
    (∀ q : ℚ, parse_bp (.float q) = (none, none)) ∧
    (∀ (s : String) (a b : ℕ) (rest : List ℕ),
      extract_numbers s = a :: b :: rest → parse_bp (.str s) = (some a, some b)) ∧
    (∀ s : String, (extract_numbers s).length < 2 → parse_bp (.str s) = (none, none)) ∧
    extract_numbers "120" = [120] ∧
    parse_bp (.str "120") = (none, none) ∧
    bp_score none none = 0 ∧
    IdValue.str "DQ1" ∈ (analyze_patients [rOneNum]).data_quality_issues := by
  refine ⟨rfl, fun n => rfl, fun q => rfl, ?_, ?_, by decide, by decide, rfl, ?_⟩
  · intro s a b rest h
    simp [parse_bp, h]
  · intro s h
    rcases hx : extract_numbers s with _ | ⟨a, _ | ⟨b, r⟩⟩
    · simp [parse_bp, hx]
    · simp [parse_bp, hx]
    · rw [hx] at h
      simp only [List.length_cons] at h
      omega
  · rw [(mem_analyze [rOneNum] (IdValue.str "DQ1")).2.2]
    exact ⟨rOneNum, by simp, by decide, by decide⟩

/-- Witness for C6: the two conditional clauses at concrete strings
(`"1234/5"` has runs 123, 4, 5; `"7"` has a single run). -/
theorem parse_bp_needs_two_runs_witness :
    parse_bp (.str "1234/5") = (some 123, some 4) ∧
    parse_bp (.str "7") = (none, none) :=
  ⟨parse_bp_needs_two_runs.2.2.2.1 "1234/5" 123 4 [5] (by decide),
   parse_bp_needs_two_runs.2.2.2.2.1 "7" (by decide)⟩

/-- C7: each output list of `analyze_patients` has no duplicates and is
sorted ascending under the identifier order, which on strings is
lexicographic comparison. -/
theorem outputs_nodup_and_sorted (patients : List PatientRecord) :
    ((analyze_patients patients).high_risk_patients.Nodup ∧
      List.Sorted idLe (analyze_patients patients).high_risk_patients) ∧
    ((analyze_patients patients).fever_patients.Nodup ∧
      List.Sorted idLe (analyze_patients patients).fever_patients) ∧
    ((analyze_patients patients).data_quality_issues.Nodup ∧
      List.Sorted idLe (analyze_patients patients).data_quality_issues) ∧
    (∀ a b : String, idLe (.str a) (.str b) ↔ a ≤ b) := by
  refine ⟨⟨?_, ?_⟩, ⟨?_, ?_⟩, ⟨?_, ?_⟩, fun a b => Iff.rfl⟩ <;>
    first
      | exact pySortedSet_nodup _
      | exact pySortedSet_sorted _

/-- C8: `analyze_patients` is invariant under permutation of the record
collection, and in particular deterministic: running it twice on the same
collection yields the same result. -/
theorem analyze_patients_perm_invariant (l₁ l₂ : List PatientRecord)
    (h : l₁.Perm l₂) : analyze_patients l₁ = analyze_patients l₂ := by
  have hps : ∀ f : PatientRecord → Bool,
      pySortedSet (selectPids f l₁) = pySortedSet (selectPids f l₂) :=
    fun f => pySortedSet_eq_of_perm (h.filterMap _)
  simp only [analyze_patients, foldl_processRecord, List.nil_append]
  rw [hps hrFlag, hps fvFlag, hps diFlag]

/-- Witness for C8: a concrete transposition, and the identity permutation
(running twice on the same collection). -/
theorem analyze_patients_perm_invariant_witness :
    analyze_patients [rLo, rHi] = analyze_patients [rHi, rLo] ∧
    analyze_patients [rHi, rLo] = analyze_patients [rHi, rLo] :=
  ⟨analyze_patients_perm_invariant _ _ (List.Perm.swap rHi rLo []),
   analyze_patients_perm_invariant _ _ (List.Perm.refl _)⟩

/-- C9: a present temperature strictly between 99.5 and 99.6, or strictly
between 100.9 and 101.0, falls in none of the three bands and scores 0; the
record `rGap` with temperature 100.95 lands in `fever_patients` while its
temperature sub-score is 0. -/
theorem temp_score_band_gaps :
    (∀ t : ℚ, 99.5 < t → t < 99.6 → temp_score (some t) = 0) ∧
    (∀ t : ℚ, 100.9 < t → t < 101.0 → temp_score (some t) = 0) ∧
    IdValue.str "GP1" ∈ (analyze_patients [rGap]).fever_patients ∧
    temp_score (parse_temp rGap.temperature) = 0 := by
  refine ⟨?_, ?_, ?_, ?_⟩
  · intro t h1 h2
    simp only [temp_score]
    rw [if_neg (by linarith), if_neg (fun hc => absurd hc.1 (by linarith)),
      if_neg (by linarith)]
  · intro t h1 h2
    simp only [temp_score]
    rw [if_neg (by linarith), if_neg (fun hc => absurd hc.2 (by linarith)),
      if_neg (by linarith)]
  · rw [(mem_analyze [rGap] (IdValue.str "GP1")).2.1]
    refine ⟨rGap, by simp, by decide, ?_⟩
    rw [fvFlag_iff]
    exact ⟨100.95, rfl, by norm_num⟩
  · rw [show parse_temp rGap.temperature = some (100.95 : ℚ) from rfl]
    norm_num [temp_score]

/-- Witness for C9: the two gap clauses at 99.55 and 100.95. -/
theorem temp_score_band_gaps_witness :
    temp_score (some (99.55 : ℚ)) = 0 ∧ temp_score (some (100.95 : ℚ)) = 0 :=
  ⟨temp_score_band_gaps.1 99.55 (by norm_num) (by norm_num),
   temp_score_band_gaps.2.1 100.95 (by norm_num) (by norm_num)⟩

/-- C10: a record whose `patient_id` and `id` are both falsy (absent, empty
string, zero) has no usable identifier and contributes to none of the three
output lists; a non-empty string `patient_id` is used even when `id` is also
present. -/
theorem unusable_id_skipped :
    (∀ p : PatientRecord, truthyId p.patient_id = false → truthyId p.id = false →
      getPid p = none) ∧
    (∀ (l₁ l₂ : List PatientRecord) (p : PatientRecord), getPid p = none →
      analyze_patients (l₁ ++ p :: l₂) = analyze_patients (l₁ ++ l₂)) ∧
    (∀ (p : PatientRecord) (s : String), p.patient_id = .str s → s ≠ "" →
      getPid p = some (.str s)) := by
  refine ⟨?_, ?_, ?_⟩
  · intro p h1 h2
    simp [getPid, h1, h2]
  · intro l₁ l₂ p hp
    have hsel : ∀ f : PatientRecord → Bool,
        selectPids f (l₁ ++ p :: l₂) = selectPids f (l₁ ++ l₂) := by
      intro f
      simp only [selectPids, List.filterMap_append]
      rw [List.filterMap_cons_none]
      simp [hp]
    simp only [analyze_patients, foldl_processRecord, List.nil_append, hsel]
  · intro p s hps hs
    have ht : truthyId (.str s) = true := by simp [truthyId, hs]
    simp [getPid, hps, ht]

/-- Witness for C10: the record with `patient_id = 0` and `id = ""` is
skipped and drops out of the analysis; the record with `patient_id = "P1"`
and `id = "P2"` uses `"P1"`. -/
theorem unusable_id_skipped_witness :
    getPid rNoId = none ∧
    analyze_patients ([rHi] ++ rNoId :: []) = analyze_patients ([rHi] ++ []) ∧
    getPid rPidBoth = some (.str "P1") :=
  ⟨unusable_id_skipped.1 rNoId (by decide) (by decide),
   unusable_id_skipped.2.1 [rHi] [] rNoId (unusable_id_skipped.1 rNoId (by decide) (by decide)),
   unusable_id_skipped.2.2 rPidBoth "P1" rfl (by decide)⟩
